import Mathlib

/-!
Shallow embedding of the interactive terminal console implemented in
`src/main.py`: the text wrapper (`TextComponent.lines` / `.details`), the
log buffer with eviction (`Console.log`), scroll/cursor arithmetic
(`Console._move_cursor`), resize handling (`Console.on_resize`), the
key-dispatch state machine (`Console.on_keypress`) and the browsing-mode
render pass (`Console.renderLogRows`).

Python strings are modelled as `List Char`; Python `int` values that can
go negative (`scroll`, cursor coordinates, key codes) are modelled as
`Int`, sizes and dimensions as `Nat` with explicit casts where the Python
arithmetic is signed.
-/

/-- Python strings, modelled as lists of characters. -/
abbrev Str := List Char

/-- The chunking `while` loop shared by `TextComponent.lines` and
`TextComponent.details` in `src/main.py` (lines 43-47 and 53-57):
`while len(line) > max_width: emit line[:max_width]; line = line[max_width:]`,
then the remainder is emitted.  `fuel` bounds the number of loop
iterations; `none` means the loop does not finish within `fuel`
iterations.  For `w = 0` and a nonempty segment the Python loop never
finishes (it keeps appending empty chunks), which the fuel model captures:
no amount of fuel yields `some`. -/
def wrapChunks : Nat → Nat → Str → Option (List Str)
  | 0, _, _ => none
  | fuel + 1, w, s =>
    if w < s.length then
      (wrapChunks fuel w (s.drop w)).map (fun r => s.take w :: r)
    else
      some [s]

/-- Wrapping of one newline-free segment: the chunking loop run with
`s.length + 1` fuel, which is always enough when `1 ≤ w` (each iteration
drops at least one character).  The `[s]` fallback is only reachable for
`w = 0`, where the Python loop diverges; program states always carry a
positive terminal width. -/
def wrapSeg (w : Nat) (s : Str) : List Str :=
  (wrapChunks (s.length + 1) w s).getD [s]

/-- Python `str.split` with the single-character separator `"\n"`, as used
by `self.text.split("\n")` in `src/main.py`.  Note `splitNl [] = [[]]`,
matching Python `"".split("\n") == ['']`. -/
def splitNl : Str → List Str
  | [] => [[]]
  | c :: cs =>
    match splitNl cs with
    | [] => [[c]]
    | r :: rs => if c = '\n' then [] :: r :: rs else (c :: r) :: rs

/-- The full wrapping algorithm of `TextComponent.lines` (src/main.py
lines 50-59): split on newlines, then hard-wrap each segment. -/
def wrap (w : Nat) (s : Str) : List Str :=
  (splitNl s).flatMap (wrapSeg w)

/-- `TextComponent` from `src/main.py`: a logged message (`text`), its
detail text (`_details`) and the terminal width frozen at creation time
(`_max_width`). -/
structure TextComponent where
  text : Str
  _details : Str
  _max_width : Nat

deriving instance DecidableEq for TextComponent

/-- The `lines` property of `TextComponent` (src/main.py lines 50-59). -/
def TextComponent.lines (t : TextComponent) : List Str :=
  wrap t._max_width t.text

/-- The `details` property of `TextComponent` (src/main.py lines 40-48):
the same wrapping algorithm applied to `_details`. -/
def TextComponent.details (t : TextComponent) : List Str :=
  wrap t._max_width t._details

/-! ### Basic facts about the wrapping loop -/

theorem wrapChunks_length_le (w : Nat) :
    ∀ fuel s r, wrapChunks fuel w s = some r → ∀ l ∈ r, l.length ≤ w := by
  intro fuel
  induction fuel with
  | zero => intro s r h; simp [wrapChunks] at h
  | succ n ih =>
    intro s r h l hl
    rw [wrapChunks] at h
    by_cases hw : w < s.length
    · rw [if_pos hw] at h
      cases hc : wrapChunks n w (s.drop w) with
      | none => rw [hc] at h; simp at h
      | some r0 =>
        rw [hc] at h
        simp at h
        subst h
        rcases List.mem_cons.mp hl with h1 | h1
        · subst h1; simp
        · exact ih (s.drop w) r0 hc l h1
    · rw [if_neg hw] at h
      simp at h
      subst h
      rcases List.mem_singleton.mp hl with rfl
      omega

theorem wrapChunks_flatten (w : Nat) :
    ∀ fuel s r, wrapChunks fuel w s = some r → r.flatten = s := by
  intro fuel
  induction fuel with
  | zero => intro s r h; simp [wrapChunks] at h
  | succ n ih =>
    intro s r h
    rw [wrapChunks] at h
    by_cases hw : w < s.length
    · rw [if_pos hw] at h
      cases hc : wrapChunks n w (s.drop w) with
      | none => rw [hc] at h; simp at h
      | some r0 =>
        rw [hc] at h
        simp at h
        subst h
        simp [ih (s.drop w) r0 hc]
    · rw [if_neg hw] at h
      simp at h
      subst h
      simp

theorem wrapChunks_isSome (w : Nat) (hw : 1 ≤ w) :
    ∀ fuel s, s.length < fuel → (wrapChunks fuel w s).isSome := by
  intro fuel
  induction fuel with
  | zero => intro s h; omega
  | succ n ih =>
    intro s h
    rw [wrapChunks]
    by_cases hlt : w < s.length
    · rw [if_pos hlt]
      have := ih (s.drop w) (by simp; omega)
      cases hc : wrapChunks n w (s.drop w) with
      | none => rw [hc] at this; simp at this
      | some r0 => simp [hc]
    · rw [if_neg hlt]; simp

theorem wrapChunks_zero_none (s : Str) (hs : s ≠ []) :
    ∀ fuel, wrapChunks fuel 0 s = none := by
  intro fuel
  induction fuel with
  | zero => rfl
  | succ n ih =>
    rw [wrapChunks]
    have hlen : 0 < s.length := List.length_pos.mpr hs
    rw [if_pos hlen]
    simp [ih]

theorem wrapSeg_eq (w : Nat) (hw : 1 ≤ w) (s : Str) :
    wrapChunks (s.length + 1) w s = some (wrapSeg w s) := by
  have h := wrapChunks_isSome w hw (s.length + 1) s (by omega)
  cases hc : wrapChunks (s.length + 1) w s with
  | none => rw [hc] at h; simp at h
  | some r => simp [wrapSeg, hc]

theorem wrapSeg_length_le (w : Nat) (hw : 1 ≤ w) (s : Str) :
    ∀ l ∈ wrapSeg w s, l.length ≤ w :=
  wrapChunks_length_le w (s.length + 1) s (wrapSeg w s) (wrapSeg_eq w hw s)

theorem wrapSeg_flatten (w : Nat) (hw : 1 ≤ w) (s : Str) :
    (wrapSeg w s).flatten = s :=
  wrapChunks_flatten w (s.length + 1) s (wrapSeg w s) (wrapSeg_eq w hw s)

/-! ### Basic facts about newline splitting -/

theorem splitNl_ne_nil (s : Str) : splitNl s ≠ [] := by
  cases s with
  | nil => simp [splitNl]
  | cons c cs =>
    rw [splitNl]
    cases h : splitNl cs with
    | nil => simp
    | cons r rs =>
      by_cases hc : c = '\n' <;> simp [hc]

theorem splitNl_flatten (s : Str) :
    (splitNl s).flatten = s.filter (fun c => c != '\n') := by
  induction s with
  | nil => simp [splitNl]
  | cons c cs ih =>
    rw [splitNl]
    cases h : splitNl cs with
    | nil => exact absurd h (splitNl_ne_nil cs)
    | cons r rs =>
      rw [h] at ih
      by_cases hc : c = '\n'
      · subst hc
        simp [List.filter_cons, ← ih]
      · simp [hc, List.filter_cons, ← ih]

theorem flatMap_wrapSeg_flatten (w : Nat) (hw : 1 ≤ w) (segs : List Str) :
    ((segs.flatMap (wrapSeg w)).flatten : Str) = segs.flatten := by
  induction segs with
  | nil => rfl
  | cons seg rest ih =>
    simp only [List.flatMap_cons, List.flatten_append, List.flatten_cons,
      wrapSeg_flatten w hw seg, ih]

/-- Claim C3: for every string `s` and width `w ≥ 1`, every line produced
by wrapping `s` at width `w` has length at most `w`, and concatenating all
produced lines reproduces `s` up to the newline characters removed by the
splitting step. -/
theorem wrap_sound (w : Nat) (s : Str) (hw : 1 ≤ w) :
    (∀ l ∈ wrap w s, l.length ≤ w) ∧
      ((wrap w s).flatten : Str) = s.filter (fun c => c != '\n') := by
  constructor
  · intro l hl
    rcases List.mem_flatMap.mp hl with ⟨seg, _, hseg⟩
    exact wrapSeg_length_le w hw seg l hseg
  · rw [wrap, flatMap_wrapSeg_flatten w hw, splitNl_flatten]

/-- Witness for `wrap_sound`: wrapping the concrete string "abc\nd" at
width 2. -/
theorem wrap_sound_witness :
    (∀ l ∈ wrap 2 ('a' :: 'b' :: 'c' :: '\n' :: 'd' :: []), l.length ≤ 2) ∧
      ((wrap 2 ('a' :: 'b' :: 'c' :: '\n' :: 'd' :: [])).flatten : Str)
        = ('a' :: 'b' :: 'c' :: '\n' :: 'd' :: []).filter (fun c => c != '\n') :=
  wrap_sound 2 ('a' :: 'b' :: 'c' :: '\n' :: 'd' :: []) (by decide)

/-- Claim C10: the chunking loop behind `TextComponent.lines` and
`TextComponent.details` finishes within `s.length + 1` iterations whenever
the wrap width is at least 1 (each iteration strictly shortens the
remaining segment), and for width 0 and a nonempty segment it never
finishes, no matter how many iterations are allowed. -/
theorem wrap_termination :
    (∀ (w : Nat) (s : Str), 1 ≤ w → (wrapChunks (s.length + 1) w s).isSome) ∧
      (∀ s : Str, s ≠ [] → ∀ fuel, wrapChunks fuel 0 s = none) := by
  constructor
  · intro w s hw
    exact wrapChunks_isSome w hw (s.length + 1) s (by omega)
  · intro s hs fuel
    exact wrapChunks_zero_none s hs fuel

/-- Witness for `wrap_termination`: the loop finishes on "ab" at width 1,
and never finishes on "a" at width 0. -/
theorem wrap_termination_witness :
    (wrapChunks (('a' :: 'b' :: []).length + 1) 1 ('a' :: 'b' :: [])).isSome ∧
      wrapChunks 5 0 ('a' :: []) = none :=
  ⟨wrap_termination.1 1 ('a' :: 'b' :: []) (by decide),
    wrap_termination.2 ('a' :: []) (by decide) 5⟩

/-! ### The console state -/

namespace State

/-- `State.LOGS` from `src/main.py` (the Browsing mode). -/
def LOGS : Nat := 0

/-- `State.DETAILS` from `src/main.py`. -/
def DETAILS : Nat := 1

/-- `State.COMMAND` from `src/main.py` (the CommandEntry mode). -/
def COMMAND : Nat := 2

end State

namespace Key

/-- Key codes from the `Key` class in `src/main.py`.  The `curses.KEY_*`
values are the standard ncurses constants (`KEY_UP = 0o403` etc.). -/
def UP : Int := 259

def DOWN : Int := 258

def HOME : Int := 262

def END : Int := 360

def RESIZE : Int := 410

def BACKSPACE : Int := 8

def ENTER : Int := 10

def ESCAPE : Int := 27

def SPACE : Int := 32

def SLASH : Int := 47

def CTRL_L : Int := 12

def J : Int := 106

def K : Int := 107

end Key

/-- The mutable state of the `Console` class in `src/main.py`: mode,
buffer, capacity, dimensions, scroll offset, cursor position and the
pending command text.  `scroll` and the cursor coordinates are Python
ints and can go negative, hence `Int`. -/
structure Console where
  state : Nat
  buffer : List TextComponent
  buffer_size : Nat
  width : Nat
  height : Nat
  scroll : Int
  cursor_x : Int
  cursor_y : Int
  command : Str

deriving instance DecidableEq for Console

/-- The `Console.lines` property (src/main.py lines 247-252): total number
of wrapped lines over the whole buffer. -/
def Console.lines (c : Console) : Nat :=
  c.buffer.foldl (fun acc t => acc + t.lines.length) 0

/-- The `Console.current_line` property (src/main.py lines 243-245). -/
def Console.current_line (c : Console) : Int :=
  c.cursor_y + c.scroll

/-- `Console._move_cursor` (src/main.py lines 261-268): scroll when the
cursor would leave the viewport, then clamp both cursor coordinates.  The
Python arithmetic is on signed ints, modelled by casting the `Nat`-valued
dimensions into `Int`. -/
def Console._move_cursor (c : Console) (x y : Int) : Console :=
  let scroll :=
    if c.cursor_y + y < 0 then max 0 (c.scroll + y)
    else if c.cursor_y + y ≥ (c.height : Int) then
      min ((c.lines : Int) - (c.height : Int)) (c.scroll + y)
    else c.scroll
  { c with
    scroll := scroll
    cursor_x := max 0 (min ((c.width : Int) - 1) (c.cursor_x + x))
    cursor_y := max 0 (min ((c.lines : Int) - scroll - 1)
      (min (c.cursor_y + y) ((c.height : Int) - 1))) }

/-- The default detail text used by `Console.log`. -/
def noDetailsStr : Str := "No details".toList

/-- `Console.log` (src/main.py lines 113-130) for a single positional
argument (every `log` call in the program passes exactly one string, and
`" ".join` of one string is that string).  `d = none` models the default
`details=None`; Python's `details or "No details"` also replaces an empty
string, being falsy. -/
def Console.log (c : Console) (msg : Str) (d : Option Str) : Console :=
  let t : TextComponent :=
    { text := msg
      _details := match d with
        | none => noDetailsStr
        | some s => if s = [] then noDetailsStr else s
      _max_width := c.width }
  let c1 :=
    if c.buffer.length > c.buffer_size then
      { c with buffer := c.buffer.tail, scroll := c.scroll - 1 }
    else c
  let c2 := { c1 with buffer := c1.buffer ++ [t] }
  let c3 :=
    if c2.cursor_y = (c2.lines : Int) - c2.scroll - 2 ∧
        c2.cursor_y < (c2.height : Int) - 1 then
      c2._move_cursor 0 1
    else c2
  if c3.buffer.length > c3.height then
    { c3 with scroll := c3.scroll + (t.lines.length : Int) }
  else c3

/-- `Console.clear` (src/main.py lines 137-141). -/
def Console.clear (c : Console) : Console :=
  { c with buffer := [], scroll := 0, cursor_x := 0, cursor_y := 0 }

/-- `Console.on_command` (src/main.py lines 150-152).  The Python method
ignores its parameter and reads `self.command` directly. -/
def Console.on_command (c : Console) : Console :=
  c.log ("Command executed: /".toList ++ c.command)
    (some ("O comando /".toList ++ c.command ++ " foi executado".toList))

/-- `Console.on_resize` (src/main.py lines 200-204).  The new dimensions
come from the terminal driver (`_getmaxyx`), so they are parameters of the
embedding. -/
def Console.on_resize (c : Console) (newHeight newWidth : Nat) : Console :=
  let c1 := { c with height := newHeight, width := newWidth }
  { c1 with
    scroll := max 0 ((c1.buffer.length : Int) - (c1.height : Int))
    cursor_x := max 0 (min ((c1.width : Int) - 1) c1.cursor_x)
    cursor_y := max 0 (min ((c1.height : Int) - 1) c1.cursor_y) }

/-- `Console.on_keypress` (src/main.py lines 154-198) without the final
`self.render()` call, which only draws and does not change the console
state.  `none` models the Browsing/Escape path, which calls `quit()` and
terminates the process.  `dims` is what `_getmaxyx` would report, consumed
only by the Resize branch.  Python's `chr(key)` is modelled by
`Char.ofNat` (it agrees on all valid code points; `chr` raises outside
them, where `Char.ofNat` falls back to a default character). -/
def Console.on_keypress (c : Console) (key : Int) (dims : Nat × Nat) :
    Option Console :=
  if c.state = State.COMMAND then
    if key = Key.ESCAPE then
      some { c with state := State.LOGS, command := [] }
    else if key = Key.BACKSPACE then
      some (if c.command.length > 0 then { c with command := c.command.dropLast }
        else c)
    else if key = Key.ENTER then
      some { c.on_command with state := State.LOGS, command := [] }
    else
      some (if c.command.length < c.width - 2 ∧ 32 ≤ key ∧ key ≤ 126 then
          { c with command := c.command ++ [Char.ofNat key.toNat] }
        else c)
  else if c.state = State.DETAILS then
    if key = Key.ESCAPE then some { c with state := State.LOGS } else some c
  else
    if key = Key.ESCAPE then none
    else if key = Key.CTRL_L then some c.clear
    else if key = Key.END then some (c._move_cursor 0 (c.buffer.length : Int))
    else if key = Key.HOME then some (c._move_cursor 0 (-(c.buffer.length : Int)))
    else if key = Key.ENTER then some { c with state := State.DETAILS }
    else if key = Key.SLASH then some { c with state := State.COMMAND }
    else if key = Key.UP ∨ key = Key.K then some (c._move_cursor 0 (-1))
    else if key = Key.DOWN ∨ key = Key.J then some (c._move_cursor 0 1)
    else if key = Key.RESIZE then some (c.on_resize dims.1 dims.2)
    else some (c.log ("Key pressed: ".toList ++ [Char.ofNat key.toNat]) none)

/-- The console state right after `Console.__init__` with terminal
dimensions `h` (already reduced by one for the status row, as `_getmaxyx`
does) and `w`. -/
def Console.init (h w : Nat) : Console :=
  { state := State.LOGS, buffer := [], buffer_size := 1000, width := w,
    height := h, scroll := 0, cursor_x := 0, cursor_y := 0, command := [] }

/-- A sequence of `log` calls with default details. -/
def Console.logs (c : Console) (msgs : List Str) : Console :=
  msgs.foldl (fun a m => a.log m none) c

/-! ### The browsing-mode render pass -/

/-- The browsing branch of `Console.render` (src/main.py lines 214-220):
`for i in range(height): if i + scroll < len(buffer): write every wrapped
line of buffer[i + scroll] at the running row counter`.  The result
records the `addstr` calls as `(row, text)` pairs.  Python would index
from the end of the buffer for a negative `i + scroll`; that case is not
modelled (the `none` branch is unreachable for `0 ≤ scroll`, the only
situation the theorems below consider). -/
def renderLogAux (buf : List TextComponent) (scroll : Int) :
    List Nat → Nat → List (Nat × Str)
  | [], _ => []
  | i :: is, row =>
    if (i : Int) + scroll < (buf.length : Int) then
      match buf.get? ((i : Int) + scroll).toNat with
      | some t =>
          t.lines.enumFrom row ++ renderLogAux buf scroll is (row + t.lines.length)
      | none => renderLogAux buf scroll is row
    else renderLogAux buf scroll is row

/-- The writes issued by the browsing branch of `Console.render`. -/
def Console.renderLogRows (c : Console) : List (Nat × Str) :=
  renderLogAux c.buffer c.scroll (List.range c.height) 0

/-- The flattened sequence of wrapped lines over the whole buffer. -/
def flatLines (buf : List TextComponent) : List Str :=
  buf.flatMap TextComponent.lines

/-- The browsing render as the spec words it (line-granular): row `i`
shows flattened line `i + scroll` when that index is valid, and rows
beyond the content stay blank. -/
def Console.specLogRows (c : Console) : List (Nat × Str) :=
  (List.range c.height).filterMap (fun i =>
    ((flatLines c.buffer).get? (i + c.scroll.toNat)).map (fun l => (i, l)))

/-- The viewport bounds invariant stated by the spec:
`0 ≤ scroll ≤ max 0 (totalLines - height)` and `0 ≤ cursorY < height`. -/
def viewInv (c : Console) : Prop :=
  0 ≤ c.scroll ∧ c.scroll ≤ max 0 ((c.lines : Int) - (c.height : Int)) ∧
    0 ≤ c.cursor_y ∧ c.cursor_y < (c.height : Int)

instance (c : Console) : Decidable (viewInv c) := by
  unfold viewInv
  exact inferInstance

/-! ### Claim C1: viewport bounds -/

theorem lines_update_cursor (c : Console) (s cx cy : Int) :
    Console.lines { c with scroll := s, cursor_x := cx, cursor_y := cy }
      = c.lines := rfl

/-- A console satisfying the spec's bounds: three one-line entries,
height 5, scroll 0, cursor on the last content row. -/
def c1state : Console :=
  { state := State.LOGS,
    buffer := [⟨['a'], noDetailsStr, 10⟩, ⟨['b'], noDetailsStr, 10⟩,
      ⟨['c'], noDetailsStr, 10⟩],
    buffer_size := 1000, width := 10, height := 5, scroll := 0,
    cursor_x := 0, cursor_y := 2, command := [] }

/-- Claim C1 as stated is false: from `c1state` (which satisfies the
bounds), the End key's `_move_cursor 0 3` sets
`scroll = min (3 - 5) 3 = -2 < 0` because the downward branch has no lower
clamp when the content is shorter than the viewport. -/
theorem move_cursor_violates_bounds :
    viewInv c1state ∧ ¬ viewInv (c1state._move_cursor 0 3) := by decide

/-- Claim C1 (amended): whenever the wrapped content fills the viewport
(`height ≤ totalLines`, `height ≥ 1`), every `_move_cursor` call preserves
`0 ≤ scroll ≤ max 0 (totalLines - height)` and `0 ≤ cursorY < height`;
when the content is shorter than the viewport, a downward overflow move
sets `scroll` to the negative value `totalLines - height`. -/
theorem move_cursor_preserves_bounds (c : Console) (x y : Int)
    (hh : 1 ≤ c.height) (hl : c.height ≤ c.lines) (hc : viewInv c) :
    viewInv (c._move_cursor x y) := by
  obtain ⟨h1, h2, h3, h4⟩ := hc
  have hmax : max (0 : Int) ((c.lines : Int) - (c.height : Int))
      = (c.lines : Int) - (c.height : Int) := by omega
  rw [hmax] at h2
  simp only [viewInv, Console._move_cursor, lines_update_cursor]
  split_ifs <;> refine ⟨?_, ?_, ?_, ?_⟩ <;> omega

/-- Witness for `move_cursor_preserves_bounds`: three one-line entries in
a height-2 viewport scrolled by one, moving down by one. -/
theorem move_cursor_preserves_bounds_witness :
    viewInv
      ((Console.mk State.LOGS
          [⟨['a'], noDetailsStr, 10⟩, ⟨['b'], noDetailsStr, 10⟩,
            ⟨['c'], noDetailsStr, 10⟩]
          1000 10 2 1 0 1 [])._move_cursor 0 1) :=
  move_cursor_preserves_bounds
    (Console.mk State.LOGS
      [⟨['a'], noDetailsStr, 10⟩, ⟨['b'], noDetailsStr, 10⟩,
        ⟨['c'], noDetailsStr, 10⟩]
      1000 10 2 1 0 1 [])
    0 1 (by decide) (by decide) (by decide)

/-! ### Claim C2: buffer eviction -/

/-- What `Console.log` appends: the message, the supplied or default
details, and the width at creation time. -/
def mkEntry (w : Nat) (msg : Str) (d : Option Str) : TextComponent :=
  { text := msg
    _details := match d with
      | none => noDetailsStr
      | some s => if s = [] then noDetailsStr else s
    _max_width := w }

theorem log_buffer (c : Console) (m : Str) (d : Option Str) :
    (c.log m d).buffer
      = (if c.buffer.length > c.buffer_size then c.buffer.tail else c.buffer)
        ++ [mkEntry c.width m d] := by
  simp only [Console.log, Console._move_cursor, mkEntry]
  split_ifs <;> rfl

theorem log_width (c : Console) (m : Str) (d : Option Str) :
    (c.log m d).width = c.width := by
  simp only [Console.log, Console._move_cursor]
  split_ifs <;> rfl

theorem log_buffer_size (c : Console) (m : Str) (d : Option Str) :
    (c.log m d).buffer_size = c.buffer_size := by
  simp only [Console.log, Console._move_cursor]
  split_ifs <;> rfl

theorem logs_append_one (c : Console) (ms : List Str) (m : Str) :
    c.logs (ms ++ [m]) = (c.logs ms).log m none := by
  simp [Console.logs, List.foldl_append]

theorem logs_width (msgs : List Str) :
    ∀ c : Console, (c.logs msgs).width = c.width := by
  induction msgs with
  | nil => intro c; rfl
  | cons m ms ih =>
    intro c
    show (Console.logs (c.log m none) ms).width = c.width
    rw [ih, log_width]

theorem logs_buffer_size (msgs : List Str) :
    ∀ c : Console, (c.logs msgs).buffer_size = c.buffer_size := by
  induction msgs with
  | nil => intro c; rfl
  | cons m ms ih =>
    intro c
    show (Console.logs (c.log m none) ms).buffer_size = c.buffer_size
    rw [ih, log_buffer_size]

/-- The buffer after any sequence of `log` calls on a fresh console: the
last `min n 1001` of the `n` logged messages.  The eviction check
`len(self.buffer) > self.buffer_size` runs before the append, so the
buffer stabilises at `buffer_size + 1 = 1001` entries. -/
theorem logs_buffer_formula (h w : Nat) (msgs : List Str) :
    ((Console.init h w).logs msgs).buffer
      = (msgs.drop (msgs.length - 1001)).map
          (fun m => mkEntry w m none) := by
  induction msgs using List.reverseRecOn with
  | nil => rfl
  | append_singleton ms m ih =>
    rw [logs_append_one, log_buffer, ih, logs_width, logs_buffer_size]
    have hw : (Console.init h w).width = w := rfl
    have hb : (Console.init h w).buffer_size = 1000 := rfl
    rw [hw, hb]
    by_cases hn : ms.length ≤ 1000
    · rw [if_neg (by simp; omega)]
      rw [Nat.sub_eq_zero_of_le (by omega), Nat.sub_eq_zero_of_le (by simp; omega)]
      simp
    · rw [if_pos (by simp; omega)]
      rw [← List.map_tail, List.tail_drop]
      have h1 : ms.length - 1001 + 1 = ms.length - 1000 := by omega
      have h2 : (ms ++ [m]).length - 1001 = ms.length - 1000 := by
        simp only [List.length_append, List.length_cons, List.length_nil]
        omega
      rw [h1, h2, List.drop_append_of_le_length (by omega)]
      simp

/-- Claim C2 as stated is false: after logging 1001 single-line entries on
a fresh console, the buffer holds 1001 entries, not 1000 (and the head is
still the first entry logged, since no eviction has happened yet). -/
theorem eviction_off_by_one :
    ((Console.init 24 80).logs (List.replicate 1001 ['a'])).buffer.length
      ≠ 1000 := by
  rw [logs_buffer_formula]
  rw [List.length_map, List.length_drop, List.length_replicate]
  norm_num

/-- Claim C2 (amended): the eviction check runs before the append with a
strict comparison, so the buffer stabilises at `bufferCapacity + 1 = 1001`
entries, with the oldest entry the one evicted: after `n` single-argument
`log` calls on a fresh console the buffer holds exactly the last
`min n 1001` messages in order; in particular after 1002 entries the
length is 1001 and the first remaining entry is the one logged second. -/
theorem log_eviction (h w : Nat) (msgs : List Str) :
    ((Console.init h w).logs msgs).buffer
        = (msgs.drop (msgs.length - 1001)).map (fun m => mkEntry w m none) ∧
      ((Console.init h w).logs msgs).buffer.length = min msgs.length 1001 := by
  refine ⟨logs_buffer_formula h w msgs, ?_⟩
  rw [logs_buffer_formula]
  simp
  omega

/-! ### Claim C4: resize re-pins the scroll -/

/-- A console holding one entry that wraps to two lines ("a\nb"). -/
def c4state : Console :=
  { state := State.LOGS,
    buffer := [⟨('a' :: '\n' :: 'b' :: []), noDetailsStr, 10⟩],
    buffer_size := 1000, width := 10, height := 24, scroll := 0,
    cursor_x := 0, cursor_y := 0, command := [] }

/-- Claim C4 as stated is false: with one two-line entry
(`totalLines() = 2`), resizing to height 1 sets `scroll` to
`max 0 (len(buffer) - 1) = 0`, not `max 0 (totalLines() - 1) = 1` —
`on_resize` counts buffer entries, not wrapped lines. -/
theorem on_resize_not_total_lines :
    (c4state.on_resize 1 10).scroll ≠ max 0 ((c4state.lines : Int) - 1) := by
  decide

/-- Claim C4 (amended): `on_resize` re-pins the scroll to
`max 0 (entryCount - newHeight)` — the number of buffer entries, which for
single-line entries coincides with the claimed totalLines formula — and
re-clamps the cursor into the new bounds; in particular resizing from
height 24 to 10 with 50 single-line entries yields `scroll = 40` and
`cursorY` in `[0, 10)`. -/
theorem on_resize_repins (c : Console) (nh nw : Nat) (hh : 1 ≤ nh) :
    (c.on_resize nh nw).scroll
        = max 0 ((c.buffer.length : Int) - (nh : Int)) ∧
      0 ≤ (c.on_resize nh nw).cursor_y ∧
      (c.on_resize nh nw).cursor_y < (nh : Int) := by
  refine ⟨rfl, ?_, ?_⟩
  · show (0 : Int) ≤ max 0 (min ((nh : Int) - 1) c.cursor_y)
    omega
  · show max 0 (min ((nh : Int) - 1) c.cursor_y) < (nh : Int)
    omega

/-- The 50-entry console of the spec's Scenario 5 (height 24, bottom
pinned). -/
def c4w : Console :=
  { state := State.LOGS,
    buffer := List.replicate 50 ⟨['x'], noDetailsStr, 80⟩,
    buffer_size := 1000, width := 80, height := 24, scroll := 26,
    cursor_x := 0, cursor_y := 10, command := [] }

/-- Witness for `on_resize_repins`: resizing `c4w` from height 24 to 10
gives `scroll = max 0 (50 - 10) = 40` and the cursor inside `[0, 10)`. -/
theorem on_resize_repins_witness :
    (c4w.on_resize 10 80).scroll
        = max 0 ((c4w.buffer.length : Int) - (10 : Int)) ∧
      0 ≤ (c4w.on_resize 10 80).cursor_y ∧
      (c4w.on_resize 10 80).cursor_y < (10 : Int) :=
  on_resize_repins c4w 10 80 (by decide)

/-! ### Claim C5: browsing-mode rendering granularity -/

theorem renderLogAux_past_end (buf : List TextComponent) (scroll : Int)
    (hs : 0 ≤ scroll) :
    ∀ (n a row : Nat), buf.length ≤ a + scroll.toNat →
      renderLogAux buf scroll (List.range' a n) row = [] := by
  intro n
  induction n with
  | zero => intro a row _; rfl
  | succ n ih =>
    intro a row hle
    rw [List.range'_succ]
    simp only [renderLogAux]
    have hg : ¬ ((a : Int) + scroll < (buf.length : Int)) := by omega
    rw [if_neg hg]
    exact ih (a + 1) row (by omega)

theorem renderLogAux_eq (buf : List TextComponent) (scroll : Int)
    (hs : 0 ≤ scroll) :
    ∀ (n a row : Nat),
      renderLogAux buf scroll (List.range' a n) row
        = List.enumFrom row
            (((buf.drop (a + scroll.toNat)).take n).flatMap
              TextComponent.lines) := by
  intro n
  induction n with
  | zero => intro a row; simp [renderLogAux]
  | succ n ih =>
    intro a row
    rw [List.range'_succ]
    simp only [renderLogAux]
    by_cases hlt : a + scroll.toNat < buf.length
    · have hg : (a : Int) + scroll < (buf.length : Int) := by omega
      rw [if_pos hg]
      have hidx : ((a : Int) + scroll).toNat = a + scroll.toNat := by omega
      rw [hidx, List.get?_eq_getElem?, List.getElem?_eq_getElem hlt]
      rw [List.drop_eq_getElem_cons hlt, List.take_succ_cons,
        List.flatMap_cons, List.enumFrom_append]
      have harg : a + scroll.toNat + 1 = (a + 1) + scroll.toNat := by omega
      rw [harg, ← ih (a + 1) (row + buf[a + scroll.toNat].lines.length)]
    · have hg : ¬ ((a : Int) + scroll < (buf.length : Int)) := by omega
      rw [if_neg hg]
      rw [List.drop_eq_nil_of_le (by omega : buf.length ≤ a + scroll.toNat)]
      rw [renderLogAux_past_end buf scroll hs n (a + 1) row (by omega)]
      simp

/-- A console whose first entry wraps to two lines, followed by a
one-line entry, in a height-2 viewport. -/
def c5state : Console :=
  { state := State.LOGS,
    buffer := [⟨('a' :: '\n' :: 'b' :: []), noDetailsStr, 10⟩,
      ⟨['c'], noDetailsStr, 10⟩],
    buffer_size := 1000, width := 10, height := 2, scroll := 0,
    cursor_x := 0, cursor_y := 0, command := [] }

/-- Claim C5 as stated is false: on `c5state` the renderer writes
`[(0,"a"), (1,"b"), (2,"c")]` — entry-granular, with a write past the
viewport — while the claimed line-granular rendering would write only
`[(0,"a"), (1,"b")]`. -/
theorem render_not_line_granular :
    c5state.renderLogRows ≠ c5state.specLogRows := by decide

/-- Claim C5 (amended): browsing-mode rendering is entry-granular in
`scroll`: the writes are exactly the wrapped lines of entries
`scroll, ..., scroll + height - 1`, laid out consecutively from row 0 —
a row index can therefore exceed the viewport height when entries wrap to
several lines, and `scroll` skips whole entries, not flattened lines. -/
theorem render_entry_granular (c : Console) (hs : 0 ≤ c.scroll) :
    c.renderLogRows
      = (((c.buffer.drop c.scroll.toNat).take c.height).flatMap
          TextComponent.lines).enum := by
  rw [Console.renderLogRows, List.range_eq_range',
    renderLogAux_eq c.buffer c.scroll hs c.height 0 0, Nat.zero_add]
  rfl

/-- Witness for `render_entry_granular`: evaluating the render of
`c5state`. -/
theorem render_entry_granular_witness :
    c5state.renderLogRows
      = (((c5state.buffer.drop c5state.scroll.toNat).take
          c5state.height).flatMap TextComponent.lines).enum :=
  render_entry_granular c5state (by decide)

/-! ### Claim C6: unrecognized key codes -/

/-- Claim C6 as stated is false: in Browsing mode the unrecognized key
code 1000 is not a no-op — the fallback branch appends a
"Key pressed: ..." entry to the buffer. -/
theorem unrecognized_key_not_noop :
    (Console.init 24 80).on_keypress 1000 (24, 80)
      ≠ some (Console.init 24 80) := by decide

/-- Claim C6 (amended): an unrecognized key code is a no-op in Details
mode (anything but Escape) and in CommandEntry mode (anything but
Escape/Backspace/Enter that is not an appendable printable in 32..126 with
room left); in Browsing mode an unrecognized key is not a no-op — it
appends a "Key pressed: <chr(key)>" log entry instead (and Python's `chr`
itself raises for key codes outside the Unicode range). -/
theorem unrecognized_key_noop (c : Console) (key : Int) (dims : Nat × Nat) :
    (c.state = State.DETAILS → key ≠ Key.ESCAPE →
        c.on_keypress key dims = some c) ∧
      (c.state = State.COMMAND → key ≠ Key.ESCAPE → key ≠ Key.BACKSPACE →
        key ≠ Key.ENTER →
        ¬ (c.command.length < c.width - 2 ∧ 32 ≤ key ∧ key ≤ 126) →
        c.on_keypress key dims = some c) ∧
      (c.state = State.LOGS → key ≠ Key.ESCAPE → key ≠ Key.CTRL_L →
        key ≠ Key.END → key ≠ Key.HOME → key ≠ Key.ENTER →
        key ≠ Key.SLASH → key ≠ Key.UP → key ≠ Key.K → key ≠ Key.DOWN →
        key ≠ Key.J → key ≠ Key.RESIZE →
        c.on_keypress key dims
          = some (c.log ("Key pressed: ".toList ++ [Char.ofNat key.toNat])
              none)) := by
  refine ⟨fun h1 h2 => ?_, fun h1 h2 h3 h4 h5 => ?_,
    fun h1 h2 h3 h4 h5 h6 h7 h8 h9 h10 h11 h12 => ?_⟩
  · simp [Console.on_keypress, h1, h2, State.DETAILS, State.COMMAND]
  · simp [Console.on_keypress, h1, h2, h3, h4, h5, State.COMMAND]
  · simp [Console.on_keypress, h1, h2, h3, h4, h5, h6, h7, h8, h9, h10,
      h11, h12, State.LOGS, State.DETAILS, State.COMMAND]

/-- A fresh console sitting in Details mode. -/
def c6det : Console := { Console.init 24 80 with state := State.DETAILS }

/-- A fresh console sitting in CommandEntry mode. -/
def c6cmd : Console := { Console.init 24 80 with state := State.COMMAND }

/-- Witness for `unrecognized_key_noop`: key code 1000 in all three
modes. -/
theorem unrecognized_key_noop_witness :
    c6det.on_keypress 1000 (24, 80) = some c6det ∧
      c6cmd.on_keypress 1000 (24, 80) = some c6cmd ∧
      (Console.init 24 80).on_keypress 1000 (24, 80)
        = some ((Console.init 24 80).log
            ("Key pressed: ".toList ++ [Char.ofNat (1000 : Int).toNat])
            none) :=
  ⟨(unrecognized_key_noop c6det 1000 (24, 80)).1 rfl (by decide),
    (unrecognized_key_noop c6cmd 1000 (24, 80)).2.1 rfl (by decide)
      (by decide) (by decide) (by decide),
    (unrecognized_key_noop (Console.init 24 80) 1000 (24, 80)).2.2 rfl
      (by decide) (by decide) (by decide) (by decide) (by decide)
      (by decide) (by decide) (by decide) (by decide) (by decide)
      (by decide)⟩

/-! ### Claim C7: command submission -/

/-- Claim C7: in CommandEntry mode, Enter appends exactly one new entry
whose message is "Command executed: /<command>", returns the mode to
Browsing and clears the command text (the buffer may additionally evict
its oldest entry when over capacity, exactly as any `log` call does). -/
theorem command_submission (c : Console) (dims : Nat × Nat)
    (hc : c.state = State.COMMAND) :
    ∃ c2, c.on_keypress Key.ENTER dims = some c2 ∧
      c2.state = State.LOGS ∧ c2.command = [] ∧
      c2.buffer
        = (if c.buffer.length > c.buffer_size then c.buffer.tail
            else c.buffer)
          ++ [{ text := "Command executed: /".toList ++ c.command,
                _details := "O comando /".toList ++ c.command
                  ++ " foi executado".toList,
                _max_width := c.width }] := by
  refine ⟨{ c.on_command with state := State.LOGS, command := [] },
    ?_, rfl, rfl, ?_⟩
  · simp [Console.on_keypress, hc, State.COMMAND, Key.ENTER, Key.ESCAPE,
      Key.BACKSPACE]
  · show (c.on_command).buffer = _
    rw [Console.on_command, log_buffer]
    have hne : "O comando /".toList ++ c.command ++ " foi executado".toList
        ≠ ([] : Str) := by
      intro hh
      have h0 : ("O comando /".toList : Str) ≠ [] := by decide
      exact h0 (List.append_eq_nil.mp (List.append_eq_nil.mp hh).1).1
    simp [mkEntry, hne]

/-- The CommandEntry console of the spec's Scenario 4 (`commandText =
"foo"`). -/
def c7state : Console :=
  { Console.init 24 80 with
    state := State.COMMAND,
    command := 'f' :: 'o' :: 'o' :: [] }

/-- Witness for `command_submission`: pressing Enter on `c7state` appends
the entry "Command executed: /foo". -/
theorem command_submission_witness :
    ∃ c2, c7state.on_keypress Key.ENTER (24, 80) = some c2 ∧
      c2.state = State.LOGS ∧ c2.command = [] ∧
      c2.buffer
        = (if c7state.buffer.length > c7state.buffer_size then
            c7state.buffer.tail else c7state.buffer)
          ++ [{ text := "Command executed: /".toList ++ c7state.command,
                _details := "O comando /".toList ++ c7state.command
                  ++ " foi executado".toList,
                _max_width := c7state.width }] :=
  command_submission c7state (24, 80) rfl

/-! ### Claim C8: Escape closure -/

/-- Claim C8: Escape returns Details to Browsing in one step, returns
CommandEntry to Browsing in one step while clearing the command text, and
in Browsing triggers session termination (`quit()`, modelled as `none`). -/
theorem escape_closure (c : Console) (dims : Nat × Nat) :
    (c.state = State.DETAILS →
        c.on_keypress Key.ESCAPE dims
          = some { c with state := State.LOGS }) ∧
      (c.state = State.COMMAND →
        c.on_keypress Key.ESCAPE dims
          = some { c with state := State.LOGS, command := [] }) ∧
      (c.state = State.LOGS → c.on_keypress Key.ESCAPE dims = none) := by
  refine ⟨fun h => ?_, fun h => ?_, fun h => ?_⟩ <;>
    simp [Console.on_keypress, h, State.LOGS, State.DETAILS, State.COMMAND]

/-- A console in Details mode for the Escape-closure witness. -/
def c8det : Console := { Console.init 10 40 with state := State.DETAILS }

/-- A console in CommandEntry mode for the Escape-closure witness. -/
def c8cmd : Console :=
  { Console.init 10 40 with state := State.COMMAND, command := 'h' :: 'i' :: [] }

/-- Witness for `escape_closure`: Escape in each of the three modes. -/
theorem escape_closure_witness :
    c8det.on_keypress Key.ESCAPE (10, 40)
        = some { c8det with state := State.LOGS } ∧
      c8cmd.on_keypress Key.ESCAPE (10, 40)
        = some { c8cmd with state := State.LOGS, command := [] } ∧
      (Console.init 10 40).on_keypress Key.ESCAPE (10, 40) = none :=
  ⟨(escape_closure c8det (10, 40)).1 rfl,
    (escape_closure c8cmd (10, 40)).2.1 rfl,
    (escape_closure (Console.init 10 40) (10, 40)).2.2 rfl⟩

/-! ### Claim C9: Details mode frame property -/

/-- Claim C9: in Details mode every key other than Escape leaves the
entire console state — mode, buffer, scroll, cursor and command text —
unchanged. -/
theorem details_frame (c : Console) (key : Int) (dims : Nat × Nat)
    (hd : c.state = State.DETAILS) (hk : key ≠ Key.ESCAPE) :
    c.on_keypress key dims = some c := by
  simp [Console.on_keypress, hd, hk, State.DETAILS, State.COMMAND]

/-- A Details-mode console with nontrivial fields for the frame witness. -/
def c9state : Console :=
  { state := State.DETAILS,
    buffer := [⟨['a'], noDetailsStr, 40⟩, ⟨['b'], noDetailsStr, 40⟩],
    buffer_size := 1000, width := 40, height := 10, scroll := 1,
    cursor_x := 2, cursor_y := 3, command := [] }

/-- Witness for `details_frame`: the letter 'n' (code 110) in Details
mode changes nothing. -/
theorem details_frame_witness :
    c9state.on_keypress 110 (10, 40) = some c9state :=
  details_frame c9state 110 (10, 40) rfl (by decide)


